import Mathlib

/-!
Verification of the PLLA 3.0 prediction-engine core
(`backend/prediction_engine/`): a shallow embedding in Lean 4 of the
statistics builder, classification engine, prediction engine,
historical consolidator and validation engine, together with proofs of
the specified properties.

Modelling conventions:
* Python floats are modelled as exact rationals (`ℚ`); goal counts and
  integer counters as `ℤ`.
* `round(x, 2)` is modelled as rounding half-up to two decimals
  (`round2`); Python rounds half-to-even on binary floats, but every
  theorem below only uses the bound `|round2 x - x| ≤ 1/200`, which
  holds for either tie-breaking rule.
* Python `dict` records are modelled as structures; a key accessed with
  `d[k]` (raising `KeyError` when absent) becomes an `Option` field,
  while keys read with `d.get(k, default)` become plain fields already
  holding the defaulted value.
* Functions that can raise (`ValueError`, `KeyError`, pydantic
  validation errors, `ZeroDivisionError`) return `Option`; `none` is
  the raised exception.
* Team names (Python `str`) are lists of characters compared
  lexicographically by code point, as Python compares strings.
-/

/-! ## Preliminaries -/

/-- Team names: Python strings compared by code points. -/
abbrev Nombre := List Char

/-- Lexicographic `≤` on names, as Python compares strings. -/
def lexLe : Nombre → Nombre → Bool
  | [], _ => true
  | _ :: _, [] => false
  | a :: as, b :: bs => if a < b then true else if a = b then lexLe as bs else false

/-- `round(x, 2)`: round to two decimal places. -/
def round2 (x : ℚ) : ℚ := (Rat.floor (x * 100 + 1/2) : ℚ) / 100

theorem rat_floor_eq_int_floor (q : ℚ) : (Rat.floor q : ℤ) = ⌊q⌋ := by
  rw [Rat.floor_def', Rat.floor_def]

theorem round2_close (x : ℚ) : |round2 x - x| ≤ 1/200 := by
  unfold round2
  rw [rat_floor_eq_int_floor]
  have h1 : (⌊x * 100 + 1/2⌋ : ℚ) ≤ x * 100 + 1/2 := Int.floor_le _
  have h2 : x * 100 + 1/2 < ⌊x * 100 + 1/2⌋ + 1 := Int.lt_floor_add_one _
  rw [abs_le]
  constructor <;> nlinarith

/-- Rounding each of three summands that add up to 100 keeps the sum
within the spec's tolerance of ±0.05. -/
theorem sum3_round2_close (a b c : ℚ) (h : a + b + c = 100) :
    |round2 a + round2 b + round2 c - 100| ≤ 1/20 := by
  have ha := round2_close a
  have hb := round2_close b
  have hc := round2_close c
  rw [abs_le] at ha hb hc ⊢
  constructor <;> nlinarith [ha.1, ha.2, hb.1, hb.2, hc.1, hc.2]

/-- Insertion of one element into a sorted list (stable: the new
element goes after existing elements it does not strictly precede,
matching Python's stable sort). -/
def insertEl (le : α → α → Bool) (x : α) : List α → List α
  | [] => [x]
  | y :: ys => if le x y then x :: y :: ys else y :: insertEl le x ys

/-- Stable insertion sort; for a total, transitive `le` it produces the
same list as Python's stable `list.sort`. -/
def insSort (le : α → α → Bool) : List α → List α
  | [] => []
  | x :: xs => insertEl le x (insSort le xs)

/-! ## config.py — enumerations and thresholds -/

namespace ResultadoEnum

def LOCAL : String := "L"

def EMPATE : String := "E"

def VISITA : String := "V"

end ResultadoEnum

namespace DobleOportunidadEnum

def LOCAL_EMPATE : String := "1X"

def EMPATE_VISITA : String := "X2"

def LOCAL_VISITA : String := "12"

end DobleOportunidadEnum

namespace AmbosMarcamEnum

def SI : String := "SI"

def NO : String := "NO"

end AmbosMarcamEnum

namespace ValidacionResultadoEnum

def GANA : String := "GANA"

def PIERDE : String := "PIERDE"

end ValidacionResultadoEnum

inductive TipoTiempo where
  | COMPLETO
  | PRIMER_TIEMPO
  | SEGUNDO_TIEMPO
deriving DecidableEq

namespace Umbrales

def PROB_LOCAL_MIN : ℚ := 43

def PROB_LOCAL_MAX : ℚ := 69.5

def PROB_EMPATE_MAX : ℚ := 20

def DIFERENCIA_EMPATE : ℚ := 10

def SUMA_PROB_MIN : ℚ := 116

def SUMA_PROB_MAX : ℚ := 123

def PROB_VISITA_MAX : ℚ := 42

def UMBRAL_AMBOS_MARCAN : ℚ := 45

def FACTOR_5_MIN : ℚ := 80

def FACTOR_4_MIN : ℚ := 60

def FACTOR_3_MIN : ℚ := 40

def FACTOR_2_MIN : ℚ := 20

def PARTIDOS_FORMA_RECIENTE : ℤ := 5

def PESO_FORMA_RECIENTE : ℚ := 0.3

end Umbrales

namespace Config

def PUNTOS_VICTORIA : ℤ := 3

def PUNTOS_EMPATE : ℤ := 1

def PUNTOS_DERROTA : ℤ := 0

def MIN_PARTIDOS_CONFIABLE : ℤ := 5

end Config

-- `Config.PROMEDIOS_POR_DEFECTO`: league-wide default values.
namespace PROMEDIOS_POR_DEFECTO

def prob_local : ℚ := 44

def prob_empate : ℚ := 28

def prob_visita : ℚ := 28

def goles_local : ℚ := 1.48

def goles_visita : ℚ := 1.16

end PROMEDIOS_POR_DEFECTO

/-! ## models.py — data model -/

/-- `EstadisticasEquipo`: a team's accumulated statistics for one time
scope. All integer counters carry a pydantic `ge=0` bound except
`diferencia_goles`; fields default to 0. -/
structure EstadisticasEquipo where
  partidos_jugados : ℤ := 0
  victorias : ℤ := 0
  empates : ℤ := 0
  derrotas : ℤ := 0
  goles_favor : ℤ := 0
  goles_contra : ℤ := 0
  diferencia_goles : ℤ := 0
  puntos : ℤ := 0
  pj_local : ℤ := 0
  v_local : ℤ := 0
  e_local : ℤ := 0
  d_local : ℤ := 0
  gf_local : ℤ := 0
  gc_local : ℤ := 0
  pts_local : ℤ := 0
  pj_visita : ℤ := 0
  v_visita : ℤ := 0
  e_visita : ℤ := 0
  d_visita : ℤ := 0
  gf_visita : ℤ := 0
  gc_visita : ℤ := 0
  pts_visita : ℤ := 0
  rendimiento_general : ℚ := 0
  rendimiento_local : ℚ := 0
  rendimiento_visita : ℚ := 0
  promedio_gf : ℚ := 0
  promedio_gc : ℚ := 0
deriving DecidableEq

/-- `EstadisticasEquipo.calcular_derivados`: derived ratios, computed
once after the fold; each guarded by `played > 0`. -/
def EstadisticasEquipo.calcular_derivados (s : EstadisticasEquipo) : EstadisticasEquipo :=
  let s1 :=
    if s.partidos_jugados > 0 then
      { s with
        rendimiento_general :=
          round2 ((s.puntos : ℚ) / ((s.partidos_jugados : ℚ) * (Config.PUNTOS_VICTORIA : ℚ)) * 100)
        promedio_gf := round2 ((s.goles_favor : ℚ) / (s.partidos_jugados : ℚ))
        promedio_gc := round2 ((s.goles_contra : ℚ) / (s.partidos_jugados : ℚ)) }
    else s
  let s2 :=
    if s1.pj_local > 0 then
      { s1 with
        rendimiento_local :=
          round2 ((s1.pts_local : ℚ) / ((s1.pj_local : ℚ) * (Config.PUNTOS_VICTORIA : ℚ)) * 100) }
    else s1
  if s2.pj_visita > 0 then
    { s2 with
      rendimiento_visita :=
        round2 ((s2.pts_visita : ℚ) / ((s2.pj_visita : ℚ) * (Config.PUNTOS_VICTORIA : ℚ)) * 100) }
  else s2

/-- `Equipo`: a team with statistics for the three time scopes
(identity fields other than the name are omitted: one build works
inside a single league and season). -/
structure Equipo where
  nombre : Nombre
  stats_completo : EstadisticasEquipo := {}
  stats_primer_tiempo : EstadisticasEquipo := {}
  stats_segundo_tiempo : EstadisticasEquipo := {}
deriving DecidableEq

/-- `Equipo.obtener_stats`: statistics for the requested time scope. -/
def Equipo.obtener_stats (e : Equipo) : TipoTiempo → EstadisticasEquipo
  | TipoTiempo.COMPLETO => e.stats_completo
  | TipoTiempo.PRIMER_TIEMPO => e.stats_primer_tiempo
  | TipoTiempo.SEGUNDO_TIEMPO => e.stats_segundo_tiempo

/-- `Probabilidades`: the three outcome percentages. -/
structure Probabilidades where
  porcentaje_local : ℚ := 0
  porcentaje_empate : ℚ := 0
  porcentaje_visita : ℚ := 0
deriving DecidableEq

/-- `Probabilidades.suma`. -/
def Probabilidades.suma (p : Probabilidades) : ℚ :=
  p.porcentaje_local + p.porcentaje_empate + p.porcentaje_visita

/-- `PronosticoTiempo` (the fields the validation engine reads). -/
structure PronosticoTiempo where
  pronostico : String
  doble_oportunidad : String
  ambos_marcan : String
  probabilidades : Probabilidades
deriving DecidableEq

/-- `Pronostico`: one forecast per time scope. -/
structure Pronostico where
  tiempo_completo : PronosticoTiempo
  primer_tiempo : PronosticoTiempo
  segundo_tiempo : PronosticoTiempo
deriving DecidableEq

/-- `ValidacionTiempo`: the per-scope validation verdicts. -/
structure ValidacionTiempo where
  resultado_doble_oportunidad : String
  resultado_ambos_marcan : String
  pronostico_original : String
  resultado_real : String
  acierto_principal : Bool
deriving DecidableEq

/-! ## prediction_engine.py — probabilities and decision -/

/-- `PredictionEngine._calcular_probabilidades`: base probabilities
from the home side's home-context ratio and the away side's
away-context ratio. -/
def calcular_probabilidades (stats_local stats_visitante : EstadisticasEquipo) :
    Probabilidades :=
  let rend_local : ℚ :=
    if stats_local.pj_local < Config.MIN_PARTIDOS_CONFIABLE then
      PROMEDIOS_POR_DEFECTO.prob_local
    else stats_local.rendimiento_local
  let rend_visita : ℚ :=
    if stats_visitante.pj_visita < Config.MIN_PARTIDOS_CONFIABLE then
      PROMEDIOS_POR_DEFECTO.prob_visita
    else stats_visitante.rendimiento_visita
  let total := rend_local + rend_visita
  if total = 0 then
    { porcentaje_local := PROMEDIOS_POR_DEFECTO.prob_local
      porcentaje_empate := PROMEDIOS_POR_DEFECTO.prob_empate
      porcentaje_visita := PROMEDIOS_POR_DEFECTO.prob_visita }
  else
    let prob_local_base := rend_local / total * 100
    let prob_visita_base := rend_visita / total * 100
    let diferencia := |prob_local_base - prob_visita_base|
    let factor_empate := max 0 (30 - diferencia)
    let prob_empate := factor_empate
    let resto := 100 - factor_empate
    let prob_local := prob_local_base * resto / 100
    let prob_visita := prob_visita_base * resto / 100
    let suma := prob_local + prob_empate + prob_visita
    { porcentaje_local := round2 (prob_local / suma * 100)
      porcentaje_empate := round2 (prob_empate / suma * 100)
      porcentaje_visita := round2 (prob_visita / suma * 100) }

/-- `PredictionEngine._calcular_factor_ajuste`: performance ratio to
strength factor 1–5. -/
def calcular_factor_ajuste (rendimiento : ℚ) : ℤ :=
  if rendimiento > Umbrales.FACTOR_5_MIN then 5
  else if rendimiento > Umbrales.FACTOR_4_MIN then 4
  else if rendimiento > Umbrales.FACTOR_3_MIN then 3
  else if rendimiento > Umbrales.FACTOR_2_MIN then 2
  else 1

/-- `PredictionEngine._aplicar_algoritmo_decision`: the ordered
decision rules over factor-adjusted probabilities. -/
def aplicar_algoritmo_decision (probabilidades : Probabilidades)
    (factor_local factor_visita : ℤ) : String :=
  let p_local := probabilidades.porcentaje_local
  let p_empate := probabilidades.porcentaje_empate
  let p_visita := probabilidades.porcentaje_visita
  let ajuste_local : ℚ := ((factor_local : ℚ) - 3) * 2
  let ajuste_visita : ℚ := ((factor_visita : ℚ) - 3) * 2
  let p_local_ajustado := p_local + ajuste_local
  let p_visita_ajustado := p_visita + ajuste_visita
  if Umbrales.PROB_LOCAL_MIN < p_local_ajustado ∧ p_local_ajustado < Umbrales.PROB_LOCAL_MAX ∧
      p_empate < Umbrales.PROB_EMPATE_MAX then
    ResultadoEnum.LOCAL
  else if p_local_ajustado ≥ Umbrales.PROB_LOCAL_MAX then
    ResultadoEnum.LOCAL
  else if p_local_ajustado < Umbrales.PROB_LOCAL_MIN ∧ p_visita_ajustado > p_local_ajustado then
    ResultadoEnum.VISITA
  else if p_empate ≥ Umbrales.PROB_EMPATE_MAX ∧
      |p_local_ajustado - p_visita_ajustado| < Umbrales.DIFERENCIA_EMPATE then
    ResultadoEnum.EMPATE
  else if p_local_ajustado ≥ p_visita_ajustado ∧ p_local_ajustado ≥ p_empate then
    ResultadoEnum.LOCAL
  else if p_visita_ajustado ≥ p_local_ajustado ∧ p_visita_ajustado ≥ p_empate then
    ResultadoEnum.VISITA
  else
    ResultadoEnum.EMPATE

/-- Modelled from the spec sentence of C1 (not from the code): adjusted
probabilities, then the first matching rule — HOME on the optimal
range with low draw, HOME when very favourite, AWAY, DRAW, else the
largest of adjusted home / adjusted away / draw with ties broken in
the order home, away, draw. -/
def decision_spec (p : Probabilidades) (f_home f_away : ℤ) : String :=
  let adj_home := p.porcentaje_local + ((f_home : ℚ) - 3) * 2
  let adj_away := p.porcentaje_visita + ((f_away : ℚ) - 3) * 2
  let draw := p.porcentaje_empate
  if 43 < adj_home ∧ adj_home < 69.5 ∧ draw < 20 then ResultadoEnum.LOCAL
  else if adj_home ≥ 69.5 then ResultadoEnum.LOCAL
  else if adj_home < 43 ∧ adj_away > adj_home then ResultadoEnum.VISITA
  else if draw ≥ 20 ∧ |adj_home - adj_away| < 10 then ResultadoEnum.EMPATE
  else if adj_home ≥ adj_away ∧ adj_home ≥ draw then ResultadoEnum.LOCAL
  else if adj_away ≥ adj_home ∧ adj_away ≥ draw then ResultadoEnum.VISITA
  else ResultadoEnum.EMPATE

/-- `PredictionEngine._generar_doble_oportunidad`. -/
def generar_doble_oportunidad (pronostico : String) (probabilidades : Probabilidades) :
    String :=
  let p_local := probabilidades.porcentaje_local
  let p_visita := probabilidades.porcentaje_visita
  let suma_sin_empate := p_local + p_visita
  if suma_sin_empate > Umbrales.SUMA_PROB_MIN then DobleOportunidadEnum.LOCAL_VISITA
  else if pronostico = ResultadoEnum.LOCAL then DobleOportunidadEnum.LOCAL_EMPATE
  else if pronostico = ResultadoEnum.VISITA then DobleOportunidadEnum.EMPATE_VISITA
  else if p_local > p_visita then DobleOportunidadEnum.LOCAL_EMPATE
  else DobleOportunidadEnum.EMPATE_VISITA

/-- Recent-form data as read by the engine (`forma.get('rendimiento', 50.0)`
and the goal averages, already defaulted). -/
structure FormaReciente where
  rendimiento : ℚ := 50
  goles_favor_avg : ℚ := 0
  goles_contra_avg : ℚ := 0
deriving DecidableEq

/-- `PredictionEngine._ajustar_por_forma_reciente`. -/
def ajustar_por_forma_reciente (probabilidades : Probabilidades)
    (forma_local forma_visitante : FormaReciente) : Probabilidades :=
  let peso := Umbrales.PESO_FORMA_RECIENTE
  let rend_forma_local := forma_local.rendimiento
  let rend_forma_visitante := forma_visitante.rendimiento
  let factor_local := (rend_forma_local - 50) / 50
  let factor_visitante := (rend_forma_visitante - 50) / 50
  let p_local := probabilidades.porcentaje_local
  let p_visita := probabilidades.porcentaje_visita
  let ajuste_local := factor_local * peso * 10
  let ajuste_visitante := factor_visitante * peso * 10
  let p_local_ajustado := max 5 (min 90 (p_local + ajuste_local))
  let p_visita_ajustado := max 5 (min 90 (p_visita + ajuste_visitante))
  let p_empate_ajustado := max 5 (min 50 (100 - p_local_ajustado - p_visita_ajustado))
  let total := p_local_ajustado + p_empate_ajustado + p_visita_ajustado
  { porcentaje_local := round2 (p_local_ajustado / total * 100)
    porcentaje_empate := round2 (p_empate_ajustado / total * 100)
    porcentaje_visita := round2 (p_visita_ajustado / total * 100) }

/-- Head-to-head summary as read by `_ajustar_por_historico`
(`h2h.get(...)` fields, already defaulted). -/
structure H2H where
  tiene_historial : Bool := false
  total_partidos : ℤ := 0
  porcentaje_eq1 : ℚ := 33
  porcentaje_eq2 : ℚ := 33
  porcentaje_empate : ℚ := 33
deriving DecidableEq

/-- Historical factors as produced by
`HistoricoConsolidado.calcular_factor_historico`. -/
structure FactoresHistoricos where
  factor_local : ℚ := 1
  factor_visita : ℚ := 1
  h2h : H2H := {}
deriving DecidableEq

/-- `PredictionEngine._ajustar_por_historico`; `none` models the
`ZeroDivisionError` raised when the normalising total is zero. -/
def ajustar_por_historico (probabilidades : Probabilidades)
    (factores_historicos : FactoresHistoricos) : Option Probabilidades :=
  let p_local := probabilidades.porcentaje_local
  let p_empate := probabilidades.porcentaje_empate
  let p_visita := probabilidades.porcentaje_visita
  let h2h := factores_historicos.h2h
  let peso_h2h : ℚ := 0.20
  let p_local₁ :=
    if h2h.tiene_historial ∧ h2h.total_partidos ≥ 3 then
      p_local * (1 - peso_h2h) + h2h.porcentaje_eq1 * peso_h2h
    else p_local
  let p_visita₁ :=
    if h2h.tiene_historial ∧ h2h.total_partidos ≥ 3 then
      p_visita * (1 - peso_h2h) + h2h.porcentaje_eq2 * peso_h2h
    else p_visita
  let p_empate₁ :=
    if h2h.tiene_historial ∧ h2h.total_partidos ≥ 3 then
      p_empate * (1 - peso_h2h) + h2h.porcentaje_empate * peso_h2h
    else p_empate
  let p_local₂ := p_local₁ * factores_historicos.factor_local
  let p_visita₂ := p_visita₁ * factores_historicos.factor_visita
  let total := p_local₂ + p_empate₁ + p_visita₂
  if total = 0 then none
  else
    some
      { porcentaje_local := round2 (p_local₂ / total * 100)
        porcentaje_empate := round2 (p_empate₁ / total * 100)
        porcentaje_visita := round2 (p_visita₂ / total * 100) }

/-! ## stats_builder.py — folding match records into statistics -/

/-- A stored match record as read by `StatsBuilder._procesar_partido`:
the team names are accessed with `partido['...']` (a missing key raises
`KeyError`), so they are `Option`; the goal counts are read with
`partido.get(..., 0)` and are stored here already defaulted. -/
structure Partido where
  equipo_local : Option Nombre
  equipo_visitante : Option Nombre
  goles_local_TR : ℤ := 0
  goles_visitante_TR : ℤ := 0
  goles_local_1MT : ℤ := 0
  goles_visitante_1MT : ℤ := 0
deriving DecidableEq

/-- The greater/equal/less outcome rule of `_actualizar_stats`. -/
def resultado_partido (goles_local goles_visita : ℤ) : String :=
  if goles_local > goles_visita then ResultadoEnum.LOCAL
  else if goles_local = goles_visita then ResultadoEnum.EMPATE
  else ResultadoEnum.VISITA

/-- Points awarded to the home side by `_actualizar_stats`. -/
def puntos_lado_local (goles_local goles_visita : ℤ) : ℤ :=
  if goles_local > goles_visita then Config.PUNTOS_VICTORIA
  else if goles_local = goles_visita then Config.PUNTOS_EMPATE
  else Config.PUNTOS_DERROTA

/-- Points awarded to the away side by `_actualizar_stats`. -/
def puntos_lado_visita (goles_local goles_visita : ℤ) : ℤ :=
  if goles_local > goles_visita then Config.PUNTOS_DERROTA
  else if goles_local = goles_visita then Config.PUNTOS_EMPATE
  else Config.PUNTOS_VICTORIA

/-- The home-side half of `StatsBuilder._actualizar_stats`: the
increments applied to the home team's statistics object. -/
def actualizar_stats_lado_local (s : EstadisticasEquipo) (goles_local goles_visita : ℤ) :
    EstadisticasEquipo :=
  let resultado := resultado_partido goles_local goles_visita
  let puntos := puntos_lado_local goles_local goles_visita
  { s with
    partidos_jugados := s.partidos_jugados + 1
    goles_favor := s.goles_favor + goles_local
    goles_contra := s.goles_contra + goles_visita
    diferencia_goles := s.diferencia_goles + (goles_local - goles_visita)
    puntos := s.puntos + puntos
    pj_local := s.pj_local + 1
    gf_local := s.gf_local + goles_local
    gc_local := s.gc_local + goles_visita
    pts_local := s.pts_local + puntos
    victorias := if resultado = ResultadoEnum.LOCAL then s.victorias + 1 else s.victorias
    v_local := if resultado = ResultadoEnum.LOCAL then s.v_local + 1 else s.v_local
    empates := if resultado = ResultadoEnum.EMPATE then s.empates + 1 else s.empates
    e_local := if resultado = ResultadoEnum.EMPATE then s.e_local + 1 else s.e_local
    derrotas := if resultado = ResultadoEnum.VISITA then s.derrotas + 1 else s.derrotas
    d_local := if resultado = ResultadoEnum.VISITA then s.d_local + 1 else s.d_local }

/-- The away-side half of `StatsBuilder._actualizar_stats`. -/
def actualizar_stats_lado_visita (s : EstadisticasEquipo) (goles_local goles_visita : ℤ) :
    EstadisticasEquipo :=
  let resultado := resultado_partido goles_local goles_visita
  let puntos := puntos_lado_visita goles_local goles_visita
  { s with
    partidos_jugados := s.partidos_jugados + 1
    goles_favor := s.goles_favor + goles_visita
    goles_contra := s.goles_contra + goles_local
    diferencia_goles := s.diferencia_goles + (goles_visita - goles_local)
    puntos := s.puntos + puntos
    pj_visita := s.pj_visita + 1
    gf_visita := s.gf_visita + goles_visita
    gc_visita := s.gc_visita + goles_local
    pts_visita := s.pts_visita + puntos
    victorias := if resultado = ResultadoEnum.VISITA then s.victorias + 1 else s.victorias
    v_visita := if resultado = ResultadoEnum.VISITA then s.v_visita + 1 else s.v_visita
    empates := if resultado = ResultadoEnum.EMPATE then s.empates + 1 else s.empates
    e_visita := if resultado = ResultadoEnum.EMPATE then s.e_visita + 1 else s.e_visita
    derrotas := if resultado = ResultadoEnum.LOCAL then s.derrotas + 1 else s.derrotas
    d_visita := if resultado = ResultadoEnum.LOCAL then s.d_visita + 1 else s.d_visita }

/-- pydantic `validate_assignment`: every field assigned by the
home-side update carries `ge=0` except `diferencia_goles`; the model
accepts the update only when each assigned value is non-negative. -/
def asignaciones_validas_local (s2 : EstadisticasEquipo) (resultado : String) : Bool :=
  decide (0 ≤ s2.partidos_jugados) && decide (0 ≤ s2.goles_favor) &&
  decide (0 ≤ s2.goles_contra) && decide (0 ≤ s2.puntos) &&
  decide (0 ≤ s2.pj_local) && decide (0 ≤ s2.gf_local) &&
  decide (0 ≤ s2.gc_local) && decide (0 ≤ s2.pts_local) &&
  (if resultado = ResultadoEnum.LOCAL then decide (0 ≤ s2.victorias) && decide (0 ≤ s2.v_local)
   else if resultado = ResultadoEnum.EMPATE then decide (0 ≤ s2.empates) && decide (0 ≤ s2.e_local)
   else decide (0 ≤ s2.derrotas) && decide (0 ≤ s2.d_local))

/-- pydantic `validate_assignment` for the away-side update. -/
def asignaciones_validas_visita (s2 : EstadisticasEquipo) (resultado : String) : Bool :=
  decide (0 ≤ s2.partidos_jugados) && decide (0 ≤ s2.goles_favor) &&
  decide (0 ≤ s2.goles_contra) && decide (0 ≤ s2.puntos) &&
  decide (0 ≤ s2.pj_visita) && decide (0 ≤ s2.gf_visita) &&
  decide (0 ≤ s2.gc_visita) && decide (0 ≤ s2.pts_visita) &&
  (if resultado = ResultadoEnum.VISITA then decide (0 ≤ s2.victorias) && decide (0 ≤ s2.v_visita)
   else if resultado = ResultadoEnum.EMPATE then decide (0 ≤ s2.empates) && decide (0 ≤ s2.e_visita)
   else decide (0 ≤ s2.derrotas) && decide (0 ≤ s2.d_visita))

/-- Home-side update under pydantic validation: `none` models the
`ValidationError` raised when an assigned value violates `ge=0`. -/
def actualizar_lado_local_checked (s : EstadisticasEquipo) (goles_local goles_visita : ℤ) :
    Option EstadisticasEquipo :=
  let s2 := actualizar_stats_lado_local s goles_local goles_visita
  if asignaciones_validas_local s2 (resultado_partido goles_local goles_visita) then some s2
  else none

/-- Away-side update under pydantic validation. -/
def actualizar_lado_visita_checked (s : EstadisticasEquipo) (goles_local goles_visita : ℤ) :
    Option EstadisticasEquipo :=
  let s2 := actualizar_stats_lado_visita s goles_local goles_visita
  if asignaciones_validas_visita s2 (resultado_partido goles_local goles_visita) then some s2
  else none

/-- `StatsBuilder.equipos_cache`, modelled as a total map:
`_obtener_o_crear_equipo` creates a fresh team on first access, so an
unseen name simply maps to a fresh `Equipo`. -/
abbrev CacheEquipos := Nombre → Equipo

/-- The cache at the start of a build (`self.equipos_cache = {}`). -/
def cache_inicial : CacheEquipos := fun nombre => { nombre := nombre }

/-- Replace the statistics of one time scope. -/
def Equipo.poner_stats (e : Equipo) : TipoTiempo → EstadisticasEquipo → Equipo
  | TipoTiempo.COMPLETO, s => { e with stats_completo := s }
  | TipoTiempo.PRIMER_TIEMPO, s => { e with stats_primer_tiempo := s }
  | TipoTiempo.SEGUNDO_TIEMPO, s => { e with stats_segundo_tiempo := s }

/-- One side's update of one time scope inside `_procesar_partido`.
The cache is threaded through sequentially, which reproduces Python's
in-place mutation even when both names denote the same team. -/
def paso_actualizacion (cache : CacheEquipos) (nombre : Nombre) (t : TipoTiempo)
    (es_local : Bool) (goles_local goles_visita : ℤ) : Option CacheEquipos :=
  let equipo := cache nombre
  let s := equipo.obtener_stats t
  match (if es_local then actualizar_lado_local_checked s goles_local goles_visita
         else actualizar_lado_visita_checked s goles_local goles_visita) with
  | none => none
  | some s2 => some (Function.update cache nombre (equipo.poner_stats t s2))

/-- `StatsBuilder._procesar_partido`: derives second-half goals as
full-time minus first-half and updates both teams for the three time
scopes in the source's order. -/
def procesar_partido (cache : CacheEquipos) (partido : Partido) : Option CacheEquipos := do
  let nombre_local ← partido.equipo_local
  let nombre_visitante ← partido.equipo_visitante
  let goles_local_tc := partido.goles_local_TR
  let goles_visita_tc := partido.goles_visitante_TR
  let goles_local_1mt := partido.goles_local_1MT
  let goles_visita_1mt := partido.goles_visitante_1MT
  let goles_local_2mt := goles_local_tc - goles_local_1mt
  let goles_visita_2mt := goles_visita_tc - goles_visita_1mt
  let c1 ← paso_actualizacion cache nombre_local TipoTiempo.COMPLETO true
    goles_local_tc goles_visita_tc
  let c2 ← paso_actualizacion c1 nombre_visitante TipoTiempo.COMPLETO false
    goles_local_tc goles_visita_tc
  let c3 ← paso_actualizacion c2 nombre_local TipoTiempo.PRIMER_TIEMPO true
    goles_local_1mt goles_visita_1mt
  let c4 ← paso_actualizacion c3 nombre_visitante TipoTiempo.PRIMER_TIEMPO false
    goles_local_1mt goles_visita_1mt
  let c5 ← paso_actualizacion c4 nombre_local TipoTiempo.SEGUNDO_TIEMPO true
    goles_local_2mt goles_visita_2mt
  let c6 ← paso_actualizacion c5 nombre_visitante TipoTiempo.SEGUNDO_TIEMPO false
    goles_local_2mt goles_visita_2mt
  pure c6

/-- The match loop of `construir_estadisticas`: each record is awaited
in turn with no per-record exception handling, so a failure propagates
and aborts the fold. -/
def fold_partidos (partidos : List Partido) : Option CacheEquipos :=
  partidos.foldlM procesar_partido cache_inicial

/-- Derived fields of all three scopes, computed once after the fold. -/
def Equipo.calcular_derivados_equipo (e : Equipo) : Equipo :=
  { e with
    stats_completo := e.stats_completo.calcular_derivados
    stats_primer_tiempo := e.stats_primer_tiempo.calcular_derivados
    stats_segundo_tiempo := e.stats_segundo_tiempo.calcular_derivados }

/-- `StatsBuilder.construir_estadisticas`: raises (`none`) when there
are no matches, folds every match, then computes derived fields. -/
def construir_estadisticas (partidos : List Partido) : Option CacheEquipos :=
  if partidos = [] then none
  else (fold_partidos partidos).map fun cache => fun n => (cache n).calcular_derivados_equipo

/-- One team's accumulated record after the fold, before derived
fields (used to state fold invariants over a decidable equality). -/
def equipo_acumulado (partidos : List Partido) (nombre : Nombre) : Option Equipo :=
  (fold_partidos partidos).map fun cache => cache nombre

/-! ## classification.py — ranked league table -/

/-- `FilaClasificacion`: one row of the classification table. -/
structure FilaClasificacion where
  posicion : ℕ := 0
  equipo : Nombre
  pj : ℤ := 0
  v : ℤ := 0
  e : ℤ := 0
  d : ℤ := 0
  gf : ℤ := 0
  gc : ℤ := 0
  dif : ℤ := 0
  pts : ℤ := 0
  pj_l : ℤ := 0
  v_l : ℤ := 0
  e_l : ℤ := 0
  d_l : ℤ := 0
  gf_l : ℤ := 0
  gc_l : ℤ := 0
  pts_l : ℤ := 0
  pj_v : ℤ := 0
  v_v : ℤ := 0
  e_v : ℤ := 0
  d_v : ℤ := 0
  gf_v : ℤ := 0
  gc_v : ℤ := 0
  pts_v : ℤ := 0
  rendimiento : ℚ := 0
  rendimiento_l : ℚ := 0
  rendimiento_v : ℚ := 0
deriving DecidableEq

/-- The row built for one team inside `generar_clasificacion`. -/
def fila_de_equipo (tipo : TipoTiempo) (equipo : Equipo) : FilaClasificacion :=
  let stats := equipo.obtener_stats tipo
  { posicion := 0
    equipo := equipo.nombre
    pj := stats.partidos_jugados
    v := stats.victorias
    e := stats.empates
    d := stats.derrotas
    gf := stats.goles_favor
    gc := stats.goles_contra
    dif := stats.diferencia_goles
    pts := stats.puntos
    pj_l := stats.pj_local
    v_l := stats.v_local
    e_l := stats.e_local
    d_l := stats.d_local
    gf_l := stats.gf_local
    gc_l := stats.gc_local
    pts_l := stats.pts_local
    pj_v := stats.pj_visita
    v_v := stats.v_visita
    e_v := stats.e_visita
    d_v := stats.d_visita
    gf_v := stats.gf_visita
    gc_v := stats.gc_visita
    pts_v := stats.pts_visita
    rendimiento := stats.rendimiento_general
    rendimiento_l := stats.rendimiento_local
    rendimiento_v := stats.rendimiento_visita }

/-- Python's sort key `(-pts, -dif, -gf, equipo)` compared
lexicographically and ascending. -/
def clave_orden (a b : FilaClasificacion) : Bool :=
  if -a.pts < -b.pts then true
  else if -b.pts < -a.pts then false
  else if -a.dif < -b.dif then true
  else if -b.dif < -a.dif then false
  else if -a.gf < -b.gf then true
  else if -b.gf < -a.gf then false
  else lexLe a.equipo b.equipo

/-- The `enumerate(filas, 1)` loop assigning 1-based positions. -/
def asignar_posiciones : ℕ → List FilaClasificacion → List FilaClasificacion
  | _, [] => []
  | k, f :: fs => { f with posicion := k } :: asignar_posiciones (k + 1) fs

/-- `ClassificationEngine.generar_clasificacion` (rows only): raises
(`none`) when there are no teams, else sorts by the key above (Python's
sort is stable; `insSort` is the same stable sort) and assigns 1-based
positions. -/
def generar_clasificacion (equipos : List Equipo) (tipo : TipoTiempo) :
    Option (List FilaClasificacion) :=
  if equipos = [] then none
  else some (asignar_posiciones 1 (insSort clave_orden (equipos.map (fila_de_equipo tipo))))

/-! ## validation.py — GANA/PIERDE verdicts -/

/-- `ValidationEngine._determinar_resultado`. -/
def determinar_resultado (gol_local gol_visita : ℤ) : String :=
  if gol_local > gol_visita then ResultadoEnum.LOCAL
  else if gol_local = gol_visita then ResultadoEnum.EMPATE
  else ResultadoEnum.VISITA

/-- The `cobertura` table of `_validar_doble_oportunidad`: which real
outcomes each double-chance pick covers. -/
def cobertura (doble_oportunidad : String) : List String :=
  if doble_oportunidad = DobleOportunidadEnum.LOCAL_EMPATE then
    [ResultadoEnum.LOCAL, ResultadoEnum.EMPATE]
  else if doble_oportunidad = DobleOportunidadEnum.EMPATE_VISITA then
    [ResultadoEnum.EMPATE, ResultadoEnum.VISITA]
  else if doble_oportunidad = DobleOportunidadEnum.LOCAL_VISITA then
    [ResultadoEnum.LOCAL, ResultadoEnum.VISITA]
  else []

/-- `ValidationEngine._validar_doble_oportunidad`. -/
def validar_doble_oportunidad (doble_oportunidad resultado_real : String) : String :=
  if resultado_real ∈ cobertura doble_oportunidad then ValidacionResultadoEnum.GANA
  else ValidacionResultadoEnum.PIERDE

/-- `ValidationEngine._validar_tiempo`. -/
def validar_tiempo (pronostico doble_oportunidad ambos_marcan resultado_real : String)
    (gol_local gol_visita : ℤ) : ValidacionTiempo :=
  let acierto_principal := pronostico = resultado_real
  let resultado_doble := validar_doble_oportunidad doble_oportunidad resultado_real
  let ambos_marcaron := 0 < gol_local ∧ 0 < gol_visita
  let resultado_ambos :=
    if (ambos_marcan = AmbosMarcamEnum.SI ∧ ambos_marcaron) ∨
        (ambos_marcan = AmbosMarcamEnum.NO ∧ ¬ambos_marcaron) then
      ValidacionResultadoEnum.GANA
    else ValidacionResultadoEnum.PIERDE
  { resultado_doble_oportunidad := resultado_doble
    resultado_ambos_marcan := resultado_ambos
    pronostico_original := pronostico
    resultado_real := resultado_real
    acierto_principal := acierto_principal }

/-- The pure core of `ValidationEngine.validar_pronostico`: second-half
goals derived as full-time minus first-half, then the three per-scope
validations. -/
def validar_pronostico_puro (pronostico : Pronostico)
    (gol_local_tc gol_visita_tc gol_local_1mt gol_visita_1mt : ℤ) :
    ValidacionTiempo × ValidacionTiempo × ValidacionTiempo :=
  let gol_local_2mt := gol_local_tc - gol_local_1mt
  let gol_visita_2mt := gol_visita_tc - gol_visita_1mt
  let resultado_tc := determinar_resultado gol_local_tc gol_visita_tc
  let resultado_1mt := determinar_resultado gol_local_1mt gol_visita_1mt
  let resultado_2mt := determinar_resultado gol_local_2mt gol_visita_2mt
  ( validar_tiempo pronostico.tiempo_completo.pronostico
      pronostico.tiempo_completo.doble_oportunidad
      pronostico.tiempo_completo.ambos_marcan resultado_tc gol_local_tc gol_visita_tc
  , validar_tiempo pronostico.primer_tiempo.pronostico
      pronostico.primer_tiempo.doble_oportunidad
      pronostico.primer_tiempo.ambos_marcan resultado_1mt gol_local_1mt gol_visita_1mt
  , validar_tiempo pronostico.segundo_tiempo.pronostico
      pronostico.segundo_tiempo.doble_oportunidad
      pronostico.segundo_tiempo.ambos_marcan resultado_2mt gol_local_2mt gol_visita_2mt )

/-- A stored validation document as read back by
`calcular_efectividad` (it may carry a league id, and dates are
abstracted to integers). -/
structure ValidacionDoc where
  liga_id : Option String := none
  fecha_validacion : ℤ := 0
  validacion_tc : Option ValidacionTiempo := none
  validacion_1mt : Option ValidacionTiempo := none
  validacion_2mt : Option ValidacionTiempo := none
deriving DecidableEq

/-- The aggregate-accuracy report of `calcular_efectividad`. -/
structure Efectividad where
  total_validaciones : ℕ
  tc_doble_aciertos : ℕ
  tc_doble_accuracy : ℚ
  tc_ambos_aciertos : ℕ
  tc_ambos_accuracy : ℚ
  tc_principal_aciertos : ℕ
  tc_principal_accuracy : ℚ
  mt1_doble_aciertos : ℕ
  mt1_doble_accuracy : ℚ
  mt1_ambos_aciertos : ℕ
  mt1_ambos_accuracy : ℚ
  mt2_doble_aciertos : ℕ
  mt2_doble_accuracy : ℚ
  mt2_ambos_aciertos : ℕ
  mt2_ambos_accuracy : ℚ
deriving DecidableEq

/-- The Mongo query built by `calcular_efectividad`: it contains only
the date-range conditions — the `liga_id` parameter is never added to
the query in the source. -/
def filtro_consulta_efectividad (fecha_inicio fecha_fin : Option ℤ) (v : ValidacionDoc) :
    Bool :=
  (match fecha_inicio with
   | some fi => decide (fi ≤ v.fecha_validacion)
   | none => true) &&
  (match fecha_fin with
   | some ff => decide (v.fecha_validacion ≤ ff)
   | none => true)

/-- Count the filtered validations whose scope verdict (selected by
`sel`, tested by `pred`) is present and satisfied. -/
def cuenta_validaciones (vs : List ValidacionDoc) (sel : ValidacionDoc → Option ValidacionTiempo)
    (pred : ValidacionTiempo → Bool) : ℕ :=
  vs.countP fun v =>
    match sel v with
    | some vt => pred vt
    | none => false

/-- `ValidationEngine.calcular_efectividad`: the `liga_id` parameter is
accepted (and documented as a league filter in the source) but unused,
exactly as in the source; only the date range restricts the documents.
`none` models the early return when no validation matches. -/
def calcular_efectividad (liga_id : Option String) (fecha_inicio fecha_fin : Option ℤ)
    (validaciones : List ValidacionDoc) : Option Efectividad :=
  let vs := validaciones.filter (filtro_consulta_efectividad fecha_inicio fecha_fin)
  if vs = [] then none
  else
    let total := vs.length
    let tc_doble := cuenta_validaciones vs (fun v => v.validacion_tc)
      (fun vt => vt.resultado_doble_oportunidad = ValidacionResultadoEnum.GANA)
    let tc_ambos := cuenta_validaciones vs (fun v => v.validacion_tc)
      (fun vt => vt.resultado_ambos_marcan = ValidacionResultadoEnum.GANA)
    let tc_principal := cuenta_validaciones vs (fun v => v.validacion_tc)
      (fun vt => vt.acierto_principal)
    let mt1_doble := cuenta_validaciones vs (fun v => v.validacion_1mt)
      (fun vt => vt.resultado_doble_oportunidad = ValidacionResultadoEnum.GANA)
    let mt1_ambos := cuenta_validaciones vs (fun v => v.validacion_1mt)
      (fun vt => vt.resultado_ambos_marcan = ValidacionResultadoEnum.GANA)
    let mt2_doble := cuenta_validaciones vs (fun v => v.validacion_2mt)
      (fun vt => vt.resultado_doble_oportunidad = ValidacionResultadoEnum.GANA)
    let mt2_ambos := cuenta_validaciones vs (fun v => v.validacion_2mt)
      (fun vt => vt.resultado_ambos_marcan = ValidacionResultadoEnum.GANA)
    some
      { total_validaciones := total
        tc_doble_aciertos := tc_doble
        tc_doble_accuracy := round2 ((tc_doble : ℚ) / (total : ℚ) * 100)
        tc_ambos_aciertos := tc_ambos
        tc_ambos_accuracy := round2 ((tc_ambos : ℚ) / (total : ℚ) * 100)
        tc_principal_aciertos := tc_principal
        tc_principal_accuracy := round2 ((tc_principal : ℚ) / (total : ℚ) * 100)
        mt1_doble_aciertos := mt1_doble
        mt1_doble_accuracy := round2 ((mt1_doble : ℚ) / (total : ℚ) * 100)
        mt1_ambos_aciertos := mt1_ambos
        mt1_ambos_accuracy := round2 ((mt1_ambos : ℚ) / (total : ℚ) * 100)
        mt2_doble_aciertos := mt2_doble
        mt2_doble_accuracy := round2 ((mt2_doble : ℚ) / (total : ℚ) * 100)
        mt2_ambos_aciertos := mt2_ambos
        mt2_ambos_accuracy := round2 ((mt2_ambos : ℚ) / (total : ℚ) * 100) }

/-! ## historico_consolidado.py — multi-season weights -/

def PESO_TEMPORADA_ACTUAL : ℚ := 0.70

def PESO_HISTORICO : ℚ := 0.30

/-- The loop of `_calcular_pesos` distributing the historical weight:
each successive season takes 60% of the remaining mass, the last one
takes whatever remains. -/
def repartir_peso_historico : ℕ → ℚ → List ℚ
  | 0, _ => []
  | 1, restante => [restante]
  | k + 2, restante =>
      let peso := restante * 0.6
      peso :: repartir_peso_historico (k + 1) (restante - peso)

/-- `HistoricoConsolidado._calcular_pesos`. -/
def calcular_pesos (n : ℕ) : List ℚ :=
  if n = 1 then [1]
  else PESO_TEMPORADA_ACTUAL :: repartir_peso_historico (n - 1) PESO_HISTORICO

/-! ## Theorems -/

/-- C1: for factors in 1..5 the decision function computes adjusted
home/away probabilities as `p + (factor - 3) * 2` and returns the first
matching rule in the claimed order (HOME on the optimal range with low
draw; HOME when ≥ 69.5; AWAY; DRAW; else the largest of adjusted home,
adjusted away, draw with ties broken home, away, draw). -/
theorem C1_decision_refina_spec (p : Probabilidades) (f_home f_away : ℤ)
    (h1 : 1 ≤ f_home) (h2 : f_home ≤ 5) (h3 : 1 ≤ f_away) (h4 : f_away ≤ 5) :
    aplicar_algoritmo_decision p f_home f_away = decision_spec p f_home f_away := rfl

theorem C1_decision_refina_spec_witness :
    (1:ℤ) ≤ 4 ∧ (4:ℤ) ≤ 5 ∧ (1:ℤ) ≤ 2 ∧ (2:ℤ) ≤ 5 ∧
    aplicar_algoritmo_decision ⟨55, 25, 20⟩ 4 2 = decision_spec ⟨55, 25, 20⟩ 4 2 :=
  ⟨by decide, by decide, by decide, by decide,
    C1_decision_refina_spec ⟨55, 25, 20⟩ 4 2 (by decide) (by decide) (by decide) (by decide)⟩

/-- C9 counterexample: for `n = 1` the weight vector is `[1.0]`, so the
most recent season receives weight 1, not 0.70 as the claim states for
every `n ≥ 1`. -/
theorem C9_counterexample_un_solo_peso :
    (calcular_pesos 1).head? = some 1 ∧ (calcular_pesos 1).head? ≠ some PESO_TEMPORADA_ACTUAL := by
  constructor
  · rfl
  · simp only [calcular_pesos, if_pos rfl, List.head?_cons, Option.some_inj]
    norm_num [PESO_TEMPORADA_ACTUAL]

theorem repartir_peso_historico_sum :
    ∀ (k : ℕ) (restante : ℚ), 1 ≤ k → (repartir_peso_historico k restante).sum = restante
  | 1, restante, _ => by simp [repartir_peso_historico]
  | k + 2, restante, _ => by
      have ih := repartir_peso_historico_sum (k + 1) (restante - restante * 0.6) (by omega)
      simp only [repartir_peso_historico, List.sum_cons, ih]
      ring

theorem repartir_peso_historico_length :
    ∀ (k : ℕ) (restante : ℚ), (repartir_peso_historico k restante).length = k
  | 0, _ => rfl
  | 1, _ => rfl
  | k + 2, restante => by
      simp only [repartir_peso_historico, List.length_cons,
        repartir_peso_historico_length (k + 1) (restante - restante * 0.6)]

/-- C9 amended: for every `n ≥ 1` the weight vector has `n` entries
summing to 1; for `n ≥ 2` the most recent season receives 0.70 and the
rest is distributed by the 60%-of-the-remainder rule with the last
season taking what remains; for `n = 1` the single season receives
weight 1 (not 0.70). -/
theorem C9_pesos_suman_uno (n : ℕ) (hn : 1 ≤ n) :
    (calcular_pesos n).length = n ∧ (calcular_pesos n).sum = 1 ∧
    (2 ≤ n → (calcular_pesos n).head? = some PESO_TEMPORADA_ACTUAL) ∧
    (n = 1 → calcular_pesos n = [1]) := by
  by_cases h1 : n = 1
  · subst h1
    exact ⟨rfl, by norm_num [calcular_pesos], by omega, fun _ => rfl⟩
  · have h2 : 2 ≤ n := by omega
    have hk : 1 ≤ n - 1 := by omega
    unfold calcular_pesos
    rw [if_neg h1]
    refine ⟨?_, ?_, fun _ => rfl, fun h => absurd h h1⟩
    · simp [repartir_peso_historico_length]
      omega
    · simp only [List.sum_cons, repartir_peso_historico_sum (n - 1) PESO_HISTORICO hk]
      norm_num [PESO_TEMPORADA_ACTUAL, PESO_HISTORICO]

theorem C9_pesos_suman_uno_witness :
    1 ≤ 3 ∧ ((calcular_pesos 3).length = 3 ∧ (calcular_pesos 3).sum = 1 ∧
      (2 ≤ 3 → (calcular_pesos 3).head? = some PESO_TEMPORADA_ACTUAL) ∧
      (3 = 1 → calcular_pesos 3 = [1])) :=
  ⟨by decide, C9_pesos_suman_uno 3 (by decide)⟩

/-- A match whose first-half home goals exceed its full-time home
goals: the half-time data is inconsistent. -/
def partido_inconsistente : Partido :=
  { equipo_local := some ['A']
    equipo_visitante := some ['B']
    goles_local_TR := 0
    goles_visitante_TR := 0
    goles_local_1MT := 1
    goles_visitante_1MT := 0 }

/-- C10: for a match whose first-half goals exceed the full-time goals
the derived second-half goals are negative, and folding the match
violates the model's non-negative bounds on assignment, so the build
raises instead of producing a statistics state. -/
theorem C10_fold_falla_con_goles_negativos :
    partido_inconsistente.goles_local_TR - partido_inconsistente.goles_local_1MT < 0 ∧
    fold_partidos [partido_inconsistente] = none ∧
    construir_estadisticas [partido_inconsistente] = none := by
  have h : fold_partidos [partido_inconsistente] = none :=
    Option.isNone_iff_eq_none.mp (by decide)
  exact ⟨by decide, h, by simp [construir_estadisticas, h]⟩

/-- A well-formed match record between teams A and B. -/
def partido_ok_ab : Partido :=
  { equipo_local := some ['A']
    equipo_visitante := some ['B']
    goles_local_TR := 1
    goles_visitante_TR := 0
    goles_local_1MT := 0
    goles_visitante_1MT := 0 }

/-- A match record with no home-team name: reading
`partido['equipo_local']` raises `KeyError`. -/
def partido_sin_nombre : Partido :=
  { equipo_local := none
    equipo_visitante := some ['C']
    goles_local_TR := 2
    goles_visitante_TR := 2 }

/-- A well-formed match record between teams C and D. -/
def partido_ok_cd : Partido :=
  { equipo_local := some ['C']
    equipo_visitante := some ['D']
    goles_local_TR := 2
    goles_visitante_TR := 2
    goles_local_1MT := 1
    goles_visitante_1MT := 1 }

/-- C7 counterexample: a batch with one failing record (missing team
name) between two good ones. The claim says the failure increments an
error counter, only that record is skipped and the rest of the batch
is still folded; the statistics build instead aborts as a whole and
produces no statistics state. -/
theorem C7_counterexample_lote_abortado :
    construir_estadisticas [partido_ok_ab, partido_sin_nombre, partido_ok_cd] = none := by
  have h : fold_partidos [partido_ok_ab, partido_sin_nombre, partido_ok_cd] = none :=
    Option.isNone_iff_eq_none.mp (by decide)
  simp [construir_estadisticas, h]

/-- C7 amended: in the statistics build a per-match failure (here a
missing home-team name) is not isolated: there is no error counter and
no skip — the exception propagates and the whole build aborts, however
many good records surround the bad one. (The error-counter isolation
described by the spec exists in backtesting and batch transformation,
not in `StatsBuilder.construir_estadisticas`.) -/
theorem C7_amended_fallo_aborta_lote (pre post : List Partido) (malo : Partido)
    (h : malo.equipo_local = none) :
    construir_estadisticas (pre ++ malo :: post) = none := by
  have hne : pre ++ malo :: post ≠ [] := by simp
  have hproc : ∀ cache, procesar_partido cache malo = none := by
    intro cache
    simp [procesar_partido, h]
  have hfold : fold_partidos (pre ++ malo :: post) = none := by
    unfold fold_partidos
    rw [List.foldlM_append]
    rcases hfp : List.foldlM procesar_partido cache_inicial pre with _ | c
    · rfl
    · simp [List.foldlM_cons, hproc]
  simp [construir_estadisticas, if_neg hne, hfold]

theorem C7_amended_fallo_aborta_lote_witness :
    construir_estadisticas ([] ++ partido_sin_nombre :: [partido_ok_cd]) = none :=
  C7_amended_fallo_aborta_lote [] [partido_ok_cd] partido_sin_nombre rfl

/-- A stored validation of league A whose full-time double-chance
verdict is a win. -/
def validacion_liga_A : ValidacionDoc :=
  { liga_id := some "A"
    fecha_validacion := 0
    validacion_tc := some
      { resultado_doble_oportunidad := ValidacionResultadoEnum.GANA
        resultado_ambos_marcan := ValidacionResultadoEnum.GANA
        pronostico_original := ResultadoEnum.LOCAL
        resultado_real := ResultadoEnum.LOCAL
        acierto_principal := true } }

/-- A stored validation of league B whose full-time double-chance
verdict is a loss. -/
def validacion_liga_B : ValidacionDoc :=
  { liga_id := some "B"
    fecha_validacion := 0
    validacion_tc := some
      { resultado_doble_oportunidad := ValidacionResultadoEnum.PIERDE
        resultado_ambos_marcan := ValidacionResultadoEnum.PIERDE
        pronostico_original := ResultadoEnum.LOCAL
        resultado_real := ResultadoEnum.VISITA
        acierto_principal := false } }

/-- C8: the aggregate-accuracy operation ignores its league filter:
the result is identical for any two league filters, and with the
filter set to league A a league-B validation is still counted (2
validations in the denominator, 1 double-chance win), so validations
of other leagues do affect the result. -/
theorem C8_filtro_liga_ignorado :
    (∀ (liga₁ liga₂ : Option String) (fecha_inicio fecha_fin : Option ℤ)
        (validaciones : List ValidacionDoc),
        calcular_efectividad liga₁ fecha_inicio fecha_fin validaciones =
          calcular_efectividad liga₂ fecha_inicio fecha_fin validaciones) ∧
    (calcular_efectividad (some "A") none none [validacion_liga_A, validacion_liga_B]).map
        (fun efectividad => (efectividad.total_validaciones, efectividad.tc_doble_aciertos)) =
      some (2, 1) := by
  constructor
  · intro liga₁ liga₂ fecha_inicio fecha_fin validaciones
    rfl
  · decide

theorem base_suma_cien (x y : ℚ) (h : x + y ≠ 0) :
    x / (x + y) * 100 + y / (x + y) * 100 = 100 := by
  field_simp
  ring

theorem mezcla_empate_suma (p q m : ℚ) (hpq : p + q = 100) :
    p * (100 - m) / 100 + m + q * (100 - m) / 100 = 100 := by
  have h : p * (100 - m) / 100 + m + q * (100 - m) / 100 = (p + q) * (100 - m) / 100 + m := by
    ring
  rw [h, hpq]
  ring

/-- Normalising three summands by their own total and rounding leaves
the sum within ±0.05 of 100. -/
theorem suma_normalizada (a b c s : ℚ) (hs : s = a + b + c) (h : s ≠ 0) :
    |round2 (a / s * 100) + round2 (b / s * 100) + round2 (c / s * 100) - 100| ≤ 1/20 := by
  apply sum3_round2_close
  have hsum : a / s * 100 + b / s * 100 + c / s * 100 = (a + b + c) / s * 100 := by ring
  rw [hsum, ← hs, div_self h]
  ring

theorem calcular_probabilidades_suma (stats_local stats_visitante : EstadisticasEquipo) :
    |(calcular_probabilidades stats_local stats_visitante).suma - 100| ≤ 1/20 := by
  unfold calcular_probabilidades
  dsimp only
  by_cases h :
      (if stats_local.pj_local < Config.MIN_PARTIDOS_CONFIABLE then
          PROMEDIOS_POR_DEFECTO.prob_local
        else stats_local.rendimiento_local) +
      (if stats_visitante.pj_visita < Config.MIN_PARTIDOS_CONFIABLE then
          PROMEDIOS_POR_DEFECTO.prob_visita
        else stats_visitante.rendimiento_visita) = 0
  · rw [if_pos h]
    norm_num [Probabilidades.suma, PROMEDIOS_POR_DEFECTO.prob_local,
      PROMEDIOS_POR_DEFECTO.prob_empate, PROMEDIOS_POR_DEFECTO.prob_visita]
  · rw [if_neg h]
    dsimp only [Probabilidades.suma]
    apply suma_normalizada _ _ _ _ rfl
    rw [mezcla_empate_suma _ _ _ (base_suma_cien _ _ h)]
    norm_num

theorem ajustar_forma_suma (probabilidades : Probabilidades)
    (forma_local forma_visitante : FormaReciente) :
    |(ajustar_por_forma_reciente probabilidades forma_local forma_visitante).suma - 100| ≤
      1/20 := by
  unfold ajustar_por_forma_reciente
  dsimp only [Probabilidades.suma]
  apply suma_normalizada _ _ _ _ rfl
  have hl : (5:ℚ) ≤ max 5 (min 90 (probabilidades.porcentaje_local +
      (forma_local.rendimiento - 50) / 50 * Umbrales.PESO_FORMA_RECIENTE * 10)) :=
    le_max_left _ _
  have hv : (5:ℚ) ≤ max 5 (min 90 (probabilidades.porcentaje_visita +
      (forma_visitante.rendimiento - 50) / 50 * Umbrales.PESO_FORMA_RECIENTE * 10)) :=
    le_max_left _ _
  have he : (5:ℚ) ≤ max 5 (min 50 (100 -
      max 5 (min 90 (probabilidades.porcentaje_local +
        (forma_local.rendimiento - 50) / 50 * Umbrales.PESO_FORMA_RECIENTE * 10)) -
      max 5 (min 90 (probabilidades.porcentaje_visita +
        (forma_visitante.rendimiento - 50) / 50 * Umbrales.PESO_FORMA_RECIENTE * 10)))) :=
    le_max_left _ _
  intro hzero
  nlinarith [hl, hv, he]

theorem ajustar_historico_suma (probabilidades : Probabilidades)
    (factores : FactoresHistoricos) (q : Probabilidades)
    (h : ajustar_por_historico probabilidades factores = some q) :
    |q.suma - 100| ≤ 1/20 := by
  unfold ajustar_por_historico at h
  dsimp only at h
  split_ifs at h with h1 h2 h3
  all_goals
    obtain rfl := (Option.some_inj.mp h).symm
    dsimp only [Probabilidades.suma]
    exact suma_normalizada _ _ _ _ rfl (by assumption)

/-- C2: every `Probabilidades` value returned by the base-probability
computation, the recent-form adjustment and the historical adjustment
has components summing to 100 within the rounding tolerance ±0.05:
each of these functions renormalises before returning. (The historical
adjustment returns a value at all exactly when its normalising total
is non-zero.) -/
theorem C2_probabilidades_renormalizadas
    (stats_local stats_visitante : EstadisticasEquipo) (p₁ : Probabilidades)
    (forma_local forma_visitante : FormaReciente) (p₂ : Probabilidades)
    (factores : FactoresHistoricos) (q : Probabilidades)
    (hq : ajustar_por_historico p₂ factores = some q) :
    |(calcular_probabilidades stats_local stats_visitante).suma - 100| ≤ 1/20 ∧
    |(ajustar_por_forma_reciente p₁ forma_local forma_visitante).suma - 100| ≤ 1/20 ∧
    |q.suma - 100| ≤ 1/20 :=
  ⟨calcular_probabilidades_suma stats_local stats_visitante,
   ajustar_forma_suma p₁ forma_local forma_visitante,
   ajustar_historico_suma p₂ factores q hq⟩

theorem C2_probabilidades_renormalizadas_witness :
    ajustar_por_historico ⟨50, 20, 30⟩ {} = some ⟨50, 20, 30⟩ ∧
    (|(calcular_probabilidades {} {}).suma - 100| ≤ 1/20 ∧
     |(ajustar_por_forma_reciente ⟨50, 20, 30⟩ {} {}).suma - 100| ≤ 1/20 ∧
     |(Probabilidades.mk 50 20 30).suma - 100| ≤ 1/20) := by
  have hq : ajustar_por_historico ⟨50, 20, 30⟩ {} = some ⟨50, 20, 30⟩ := by
    simp only [ajustar_por_historico, round2, rat_floor_eq_int_floor]
    norm_num
  exact ⟨hq, C2_probabilidades_renormalizadas {} {} ⟨50, 20, 30⟩ {} {} ⟨50, 20, 30⟩ {}
    ⟨50, 20, 30⟩ hq⟩

theorem decision_en_LEV (p : Probabilidades) (factor_local factor_visita : ℤ) :
    aplicar_algoritmo_decision p factor_local factor_visita = ResultadoEnum.LOCAL ∨
    aplicar_algoritmo_decision p factor_local factor_visita = ResultadoEnum.EMPATE ∨
    aplicar_algoritmo_decision p factor_local factor_visita = ResultadoEnum.VISITA := by
  unfold aplicar_algoritmo_decision
  dsimp only
  split_ifs <;> simp

theorem determinar_en_LEV (gol_local gol_visita : ℤ) :
    determinar_resultado gol_local gol_visita = ResultadoEnum.LOCAL ∨
    determinar_resultado gol_local gol_visita = ResultadoEnum.EMPATE ∨
    determinar_resultado gol_local gol_visita = ResultadoEnum.VISITA := by
  unfold determinar_resultado
  split_ifs <;> simp

/-- For probabilities with non-negative components summing to ~100 the
`12` branch (home% + away% > 116) is unreachable, and the remaining
branches of the double-chance generator always cover the primary
outcome. -/
theorem cobertura_cubre_pronostico (X : String) (p : Probabilidades)
    (hX : X = ResultadoEnum.LOCAL ∨ X = ResultadoEnum.EMPATE ∨ X = ResultadoEnum.VISITA)
    (hl : 0 ≤ p.porcentaje_local) (he : 0 ≤ p.porcentaje_empate)
    (hv : 0 ≤ p.porcentaje_visita) (hsuma : |p.suma - 100| ≤ 1/20) :
    X ∈ cobertura (generar_doble_oportunidad X p) := by
  have hno12 : ¬ (p.porcentaje_local + p.porcentaje_visita > Umbrales.SUMA_PROB_MIN) := by
    rw [abs_le] at hsuma
    unfold Probabilidades.suma at hsuma
    unfold Umbrales.SUMA_PROB_MIN
    intro hgt
    nlinarith [hsuma.2, he]
  unfold generar_doble_oportunidad
  dsimp only
  rw [if_neg hno12]
  rcases hX with rfl | rfl | rfl
  · rw [if_pos rfl]
    decide
  · rw [if_neg (by decide), if_neg (by decide)]
    split_ifs <;> decide
  · rw [if_neg (by decide), if_pos rfl]
    decide

/-- C3: for probabilities with non-negative components summing to 100
within tolerance and factors in 1..5, the double-chance pick generated
for the decision rule's primary outcome always covers that outcome
(HOME → 1X, AWAY → X2, DRAW → 1X or X2, and the 12 branch — reachable
only when home% + away% > 116 — never excludes the primary outcome). -/
theorem C3_doble_oportunidad_cubre (p : Probabilidades) (factor_local factor_visita : ℤ)
    (h1 : 1 ≤ factor_local) (h2 : factor_local ≤ 5)
    (h3 : 1 ≤ factor_visita) (h4 : factor_visita ≤ 5)
    (hl : 0 ≤ p.porcentaje_local) (he : 0 ≤ p.porcentaje_empate)
    (hv : 0 ≤ p.porcentaje_visita) (hsuma : |p.suma - 100| ≤ 1/20) :
    aplicar_algoritmo_decision p factor_local factor_visita ∈
      cobertura (generar_doble_oportunidad
        (aplicar_algoritmo_decision p factor_local factor_visita) p) :=
  cobertura_cubre_pronostico _ p (decision_en_LEV p factor_local factor_visita) hl he hv hsuma

theorem C3_doble_oportunidad_cubre_witness :
    (1:ℤ) ≤ 3 ∧ (3:ℤ) ≤ 5 ∧ (0:ℚ) ≤ 50 ∧ (0:ℚ) ≤ 20 ∧ (0:ℚ) ≤ 30 ∧
    |(Probabilidades.mk 50 20 30).suma - 100| ≤ 1/20 ∧
    aplicar_algoritmo_decision ⟨50, 20, 30⟩ 3 3 ∈
      cobertura (generar_doble_oportunidad (aplicar_algoritmo_decision ⟨50, 20, 30⟩ 3 3)
        ⟨50, 20, 30⟩) :=
  ⟨by decide, by decide, by decide, by decide, by decide,
   by norm_num [Probabilidades.suma],
   C3_doble_oportunidad_cubre ⟨50, 20, 30⟩ 3 3 (by decide) (by decide) (by decide) (by decide)
     (by decide) (by decide) (by decide) (by norm_num [Probabilidades.suma])⟩

/-- C6: for a stored forecast whose per-scope primary pick equals the
scope's real outcome (derived from the goals by the greater/equal/less
rule) and whose double-chance pick was generated by the engine from
that pick and its probabilities (non-negative, summing to ~100), the
scope's validation reports `acierto_principal = true` and a GANA
double-chance verdict. The statement is about the per-scope validator
`validar_tiempo`, which `validar_pronostico_puro` applies to each of
the three time scopes (second-half goals derived as full minus first). -/
theorem C6_validacion_round_trip (p : Probabilidades)
    (hl : 0 ≤ p.porcentaje_local) (he : 0 ≤ p.porcentaje_empate)
    (hv : 0 ≤ p.porcentaje_visita) (hsuma : |p.suma - 100| ≤ 1/20)
    (gol_local gol_visita : ℤ) (ambos_marcan : String) (pron : String)
    (hpron : pron = determinar_resultado gol_local gol_visita) :
    (validar_tiempo pron (generar_doble_oportunidad pron p) ambos_marcan
        (determinar_resultado gol_local gol_visita) gol_local gol_visita).acierto_principal =
      true ∧
    (validar_tiempo pron (generar_doble_oportunidad pron p) ambos_marcan
        (determinar_resultado gol_local gol_visita) gol_local
        gol_visita).resultado_doble_oportunidad = ValidacionResultadoEnum.GANA := by
  have hmem : pron ∈ cobertura (generar_doble_oportunidad pron p) :=
    cobertura_cubre_pronostico pron p (hpron ▸ determinar_en_LEV gol_local gol_visita)
      hl he hv hsuma
  subst hpron
  constructor
  · simp [validar_tiempo]
  · unfold validar_tiempo validar_doble_oportunidad
    dsimp only
    rw [if_pos hmem]

theorem C6_validacion_round_trip_witness :
    (0:ℚ) ≤ 50 ∧ (0:ℚ) ≤ 20 ∧ (0:ℚ) ≤ 30 ∧ |(Probabilidades.mk 50 20 30).suma - 100| ≤ 1/20 ∧
    ResultadoEnum.LOCAL = determinar_resultado 2 1 ∧
    ((validar_tiempo ResultadoEnum.LOCAL
        (generar_doble_oportunidad ResultadoEnum.LOCAL ⟨50, 20, 30⟩) AmbosMarcamEnum.SI
        (determinar_resultado 2 1) 2 1).acierto_principal = true ∧
     (validar_tiempo ResultadoEnum.LOCAL
        (generar_doble_oportunidad ResultadoEnum.LOCAL ⟨50, 20, 30⟩) AmbosMarcamEnum.SI
        (determinar_resultado 2 1) 2 1).resultado_doble_oportunidad =
       ValidacionResultadoEnum.GANA) :=
  ⟨by decide, by decide, by decide, by norm_num [Probabilidades.suma], by decide,
   C6_validacion_round_trip ⟨50, 20, 30⟩ (by decide) (by decide) (by decide)
     (by norm_num [Probabilidades.suma]) 2 1 AmbosMarcamEnum.SI ResultadoEnum.LOCAL
     (by decide)⟩

/-- The claimed counter invariant of one statistics record: wins +
draws + losses = played in the overall, home and away contexts, and
points = wins×3 + draws×1. -/
def invariante_stats (s : EstadisticasEquipo) : Prop :=
  s.victorias + s.empates + s.derrotas = s.partidos_jugados ∧
  s.v_local + s.e_local + s.d_local = s.pj_local ∧
  s.v_visita + s.e_visita + s.d_visita = s.pj_visita ∧
  s.puntos = s.victorias * 3 + s.empates * 1

/-- The invariant for all three time scopes of a team. -/
def invariante_equipo (e : Equipo) : Prop :=
  invariante_stats e.stats_completo ∧ invariante_stats e.stats_primer_tiempo ∧
  invariante_stats e.stats_segundo_tiempo

theorem invariante_actualizar_local (s : EstadisticasEquipo) (gl gv : ℤ)
    (h : invariante_stats s) : invariante_stats (actualizar_stats_lado_local s gl gv) := by
  obtain ⟨h1, h2, h3, h4⟩ := h
  rcases lt_trichotomy gv gl with hc | hc | hc
  · simp only [invariante_stats, actualizar_stats_lado_local, resultado_partido,
      puntos_lado_local, gt_iff_lt, if_pos hc, ResultadoEnum.LOCAL, ResultadoEnum.EMPATE,
      ResultadoEnum.VISITA, Config.PUNTOS_VICTORIA]
    simp
    omega
  · simp only [invariante_stats, actualizar_stats_lado_local, resultado_partido,
      puntos_lado_local, gt_iff_lt, hc, lt_self_iff_false, if_false, if_pos rfl,
      ResultadoEnum.LOCAL, ResultadoEnum.EMPATE, ResultadoEnum.VISITA, Config.PUNTOS_EMPATE]
    simp
    omega
  · have hne : ¬ gl = gv := by omega
    simp only [invariante_stats, actualizar_stats_lado_local, resultado_partido,
      puntos_lado_local, gt_iff_lt, if_neg (by omega : ¬ gv < gl), if_neg hne,
      ResultadoEnum.LOCAL, ResultadoEnum.EMPATE, ResultadoEnum.VISITA, Config.PUNTOS_DERROTA]
    simp
    omega

theorem invariante_actualizar_visita (s : EstadisticasEquipo) (gl gv : ℤ)
    (h : invariante_stats s) : invariante_stats (actualizar_stats_lado_visita s gl gv) := by
  obtain ⟨h1, h2, h3, h4⟩ := h
  rcases lt_trichotomy gv gl with hc | hc | hc
  · simp only [invariante_stats, actualizar_stats_lado_visita, resultado_partido,
      puntos_lado_visita, gt_iff_lt, if_pos hc, ResultadoEnum.LOCAL, ResultadoEnum.EMPATE,
      ResultadoEnum.VISITA, Config.PUNTOS_DERROTA]
    simp
    omega
  · simp only [invariante_stats, actualizar_stats_lado_visita, resultado_partido,
      puntos_lado_visita, gt_iff_lt, hc, lt_self_iff_false, if_false, if_pos rfl,
      ResultadoEnum.LOCAL, ResultadoEnum.EMPATE, ResultadoEnum.VISITA, Config.PUNTOS_EMPATE]
    simp
    omega
  · have hne : ¬ gl = gv := by omega
    simp only [invariante_stats, actualizar_stats_lado_visita, resultado_partido,
      puntos_lado_visita, gt_iff_lt, if_neg (by omega : ¬ gv < gl), if_neg hne,
      ResultadoEnum.LOCAL, ResultadoEnum.EMPATE, ResultadoEnum.VISITA, Config.PUNTOS_VICTORIA]
    simp
    omega

theorem checked_local_eq (s : EstadisticasEquipo) (gl gv : ℤ) (s2 : EstadisticasEquipo)
    (h : actualizar_lado_local_checked s gl gv = some s2) :
    s2 = actualizar_stats_lado_local s gl gv := by
  unfold actualizar_lado_local_checked at h
  dsimp only at h
  split_ifs at h
  exact (Option.some_inj.mp h).symm

theorem checked_visita_eq (s : EstadisticasEquipo) (gl gv : ℤ) (s2 : EstadisticasEquipo)
    (h : actualizar_lado_visita_checked s gl gv = some s2) :
    s2 = actualizar_stats_lado_visita s gl gv := by
  unfold actualizar_lado_visita_checked at h
  dsimp only at h
  split_ifs at h
  exact (Option.some_inj.mp h).symm

theorem invariante_obtener (e : Equipo) (t : TipoTiempo) (h : invariante_equipo e) :
    invariante_stats (e.obtener_stats t) := by
  cases t
  · exact h.1
  · exact h.2.1
  · exact h.2.2

theorem invariante_poner (e : Equipo) (t : TipoTiempo) (s2 : EstadisticasEquipo)
    (he : invariante_equipo e) (hs : invariante_stats s2) :
    invariante_equipo (e.poner_stats t s2) := by
  cases t
  · exact ⟨hs, he.2.1, he.2.2⟩
  · exact ⟨he.1, hs, he.2.2⟩
  · exact ⟨he.1, he.2.1, hs⟩

theorem paso_preserva_invariante (cache : CacheEquipos) (nombre : Nombre) (t : TipoTiempo)
    (es_local : Bool) (gl gv : ℤ) (c2 : CacheEquipos)
    (h : paso_actualizacion cache nombre t es_local gl gv = some c2)
    (hinv : ∀ n, invariante_equipo (cache n)) : ∀ n, invariante_equipo (c2 n) := by
  unfold paso_actualizacion at h
  dsimp only at h
  rcases hup : (if es_local then
      actualizar_lado_local_checked ((cache nombre).obtener_stats t) gl gv
    else actualizar_lado_visita_checked ((cache nombre).obtener_stats t) gl gv) with _ | s2
  · rw [hup] at h
    exact Option.noConfusion h
  · rw [hup] at h
    obtain rfl := (Option.some_inj.mp h).symm
    have hs2 : invariante_stats s2 := by
      have hbase := invariante_obtener (cache nombre) t (hinv nombre)
      cases es_local
      · simp only [Bool.false_eq_true, if_false] at hup
        exact checked_visita_eq _ _ _ _ hup ▸ invariante_actualizar_visita _ _ _ hbase
      · simp only [if_true] at hup
        exact checked_local_eq _ _ _ _ hup ▸ invariante_actualizar_local _ _ _ hbase
    intro n
    by_cases hn : n = nombre
    · subst hn
      rw [Function.update_same]
      exact invariante_poner _ _ _ (hinv n) hs2
    · rw [Function.update_noteq hn]
      exact hinv n

theorem procesar_preserva_invariante (cache : CacheEquipos) (partido : Partido)
    (c' : CacheEquipos) (h : procesar_partido cache partido = some c')
    (hinv : ∀ n, invariante_equipo (cache n)) : ∀ n, invariante_equipo (c' n) := by
  unfold procesar_partido at h
  dsimp only at h
  simp only [bind, Option.bind_eq_some, pure, Option.some_inj] at h
  obtain ⟨nl, hnl, nv, hnv, c1, hc1, c2, hc2, c3, hc3, c4, hc4, c5, hc5, c6, hc6, rfl⟩ := h
  exact paso_preserva_invariante _ _ _ _ _ _ _ hc6
    (paso_preserva_invariante _ _ _ _ _ _ _ hc5
      (paso_preserva_invariante _ _ _ _ _ _ _ hc4
        (paso_preserva_invariante _ _ _ _ _ _ _ hc3
          (paso_preserva_invariante _ _ _ _ _ _ _ hc2
            (paso_preserva_invariante _ _ _ _ _ _ _ hc1 hinv)))))

theorem invariante_cache_inicial : ∀ n, invariante_equipo (cache_inicial n) := by
  intro n
  refine ⟨⟨rfl, rfl, rfl, rfl⟩, ⟨rfl, rfl, rfl, rfl⟩, ⟨rfl, rfl, rfl, rfl⟩⟩

theorem fold_preserva_invariante :
    ∀ (partidos : List Partido) (inicio c' : CacheEquipos),
      List.foldlM procesar_partido inicio partidos = some c' →
      (∀ n, invariante_equipo (inicio n)) → ∀ n, invariante_equipo (c' n)
  | [], inicio, c', h, hinv => by
      simp only [List.foldlM_nil, pure, Option.some_inj] at h
      exact h ▸ hinv
  | p :: ps, inicio, c', h, hinv => by
      rw [List.foldlM_cons] at h
      rcases hp : procesar_partido inicio p with _ | c1
      · rw [hp] at h
        exact Option.noConfusion h
      · rw [hp] at h
        simp only [bind, Option.some_bind] at h
        exact fold_preserva_invariante ps c1 c' h
          (procesar_preserva_invariante _ _ _ hp hinv)

theorem invariante_derivados (s : EstadisticasEquipo) (h : invariante_stats s) :
    invariante_stats s.calcular_derivados := by
  unfold EstadisticasEquipo.calcular_derivados
  dsimp only
  split_ifs <;> exact h

theorem invariante_equipo_derivados (e : Equipo) (h : invariante_equipo e) :
    invariante_equipo e.calcular_derivados_equipo :=
  ⟨invariante_derivados _ h.1, invariante_derivados _ h.2.1, invariante_derivados _ h.2.2⟩

/-- C4: after folding any sequence of match records, every team's
statistics satisfy wins + draws + losses = played in the overall, home
and away contexts and points = wins×3 + draws×1, in each of the three
time scopes — and the derived-fields pass of the build leaves those
counters (hence the invariants) intact. -/
theorem C4_invariantes_estadisticas (partidos : List Partido) (nombre : Nombre) (e : Equipo)
    (h : equipo_acumulado partidos nombre = some e) :
    invariante_equipo e ∧ invariante_equipo e.calcular_derivados_equipo := by
  unfold equipo_acumulado at h
  rcases hf : fold_partidos partidos with _ | cache
  · rw [hf] at h
    exact Option.noConfusion h
  · rw [hf] at h
    simp only [Option.map_some'] at h
    obtain rfl := (Option.some_inj.mp h).symm
    have hinv := fold_preserva_invariante partidos cache_inicial cache hf
      invariante_cache_inicial nombre
    exact ⟨hinv, invariante_equipo_derivados _ hinv⟩

/-- Team A's accumulated record after folding the single match
`partido_ok_ab` (home win 1–0, first half 0–0). -/
def equipo_A_tras_ab : Equipo :=
  { nombre := ['A']
    stats_completo :=
      { partidos_jugados := 1, victorias := 1, puntos := 3, goles_favor := 1,
        diferencia_goles := 1, pj_local := 1, v_local := 1, gf_local := 1, pts_local := 3 }
    stats_primer_tiempo :=
      { partidos_jugados := 1, empates := 1, puntos := 1, pj_local := 1, e_local := 1,
        pts_local := 1 }
    stats_segundo_tiempo :=
      { partidos_jugados := 1, victorias := 1, puntos := 3, goles_favor := 1,
        diferencia_goles := 1, pj_local := 1, v_local := 1, gf_local := 1, pts_local := 3 } }

theorem C4_invariantes_estadisticas_witness :
    equipo_acumulado [partido_ok_ab] ['A'] = some equipo_A_tras_ab ∧
    (invariante_equipo equipo_A_tras_ab ∧
     invariante_equipo equipo_A_tras_ab.calcular_derivados_equipo) :=
  ⟨by decide, C4_invariantes_estadisticas [partido_ok_ab] ['A'] equipo_A_tras_ab (by decide)⟩

theorem lexLe_total : ∀ a b : Nombre, lexLe a b = true ∨ lexLe b a = true
  | [], _ => Or.inl rfl
  | _ :: _, [] => Or.inr rfl
  | a :: as, b :: bs => by
      rcases lt_trichotomy a b with h | h | h
      · exact Or.inl (by simp [lexLe, h])
      · subst h
        rcases lexLe_total as bs with ih | ih
        · exact Or.inl (by simp [lexLe, lt_irrefl, ih])
        · exact Or.inr (by simp [lexLe, lt_irrefl, ih])
      · exact Or.inr (by simp [lexLe, h])

theorem lexLe_trans : ∀ {a b c : Nombre},
    lexLe a b = true → lexLe b c = true → lexLe a c = true
  | [], _, _, _, _ => rfl
  | _ :: _, [], _, h, _ => by simp [lexLe] at h
  | _ :: _, _ :: _, [], _, h => by simp [lexLe] at h
  | a :: as, b :: bs, c :: cs, h1, h2 => by
      simp only [lexLe] at h1 h2 ⊢
      split_ifs at h1 with hab hab'
      · split_ifs at h2 with hbc hbc'
        · rw [if_pos (lt_trans hab hbc)]
        · rw [if_pos (hbc' ▸ hab)]
      · subst hab'
        split_ifs at h2 with hbc hbc'
        · rw [if_pos hbc]
        · subst hbc'
          rw [if_neg (lt_irrefl _), if_pos rfl]
          exact lexLe_trans h1 h2

theorem lexLe_antisymm : ∀ {a b : Nombre}, lexLe a b = true → lexLe b a = true → a = b
  | [], [], _, _ => rfl
  | [], _ :: _, _, h2 => by simp [lexLe] at h2
  | _ :: _, [], h1, _ => by simp [lexLe] at h1
  | a :: as, b :: bs, h1, h2 => by
      simp only [lexLe] at h1 h2
      split_ifs at h1 with hab hab'
      · split_ifs at h2 with hba hba'
        · exact absurd (lt_trans hab hba) (lt_irrefl a)
        · exact absurd (hba' ▸ hab) (lt_irrefl a)
      · subst hab'
        rw [if_neg (lt_irrefl a), if_pos rfl] at h2
        rw [lexLe_antisymm h1 h2]

/-- The claimed classification order: points descending, then goal
difference descending, then goals for descending, then team name
ascending. -/
def orden_clasificacion (a b : FilaClasificacion) : Prop :=
  b.pts < a.pts ∨ (a.pts = b.pts ∧
    (b.dif < a.dif ∨ (a.dif = b.dif ∧
      (b.gf < a.gf ∨ (a.gf = b.gf ∧ lexLe a.equipo b.equipo = true)))))

theorem clave_orden_eq_true_iff (a b : FilaClasificacion) :
    clave_orden a b = true ↔ orden_clasificacion a b := by
  unfold clave_orden orden_clasificacion
  split_ifs with h1 h2 h3 h4 h5 h6
  · exact iff_of_true rfl (Or.inl (by omega))
  · exact iff_of_false not_false (by rintro (h | ⟨he, _⟩) <;> omega)
  · exact iff_of_true rfl (Or.inr ⟨by omega, Or.inl (by omega)⟩)
  · exact iff_of_false not_false
      (by rintro (h | ⟨he, h | ⟨hd, _⟩⟩) <;> omega)
  · exact iff_of_true rfl (Or.inr ⟨by omega, Or.inr ⟨by omega, Or.inl (by omega)⟩⟩)
  · exact iff_of_false not_false
      (by rintro (h | ⟨he, h | ⟨hd, h | ⟨hg, _⟩⟩⟩) <;> omega)
  · have hp : a.pts = b.pts := by omega
    have hd : a.dif = b.dif := by omega
    have hg : a.gf = b.gf := by omega
    constructor
    · intro h
      exact Or.inr ⟨hp, Or.inr ⟨hd, Or.inr ⟨hg, h⟩⟩⟩
    · rintro (h | ⟨_, h | ⟨_, h | ⟨_, h⟩⟩⟩) <;> first | omega | exact h

theorem clave_orden_total (a b : FilaClasificacion) :
    clave_orden a b = true ∨ clave_orden b a = true := by
  rw [clave_orden_eq_true_iff, clave_orden_eq_true_iff]
  rcases lt_trichotomy a.pts b.pts with h | h | h
  · exact Or.inr (Or.inl h)
  · rcases lt_trichotomy a.dif b.dif with h' | h' | h'
    · exact Or.inr (Or.inr ⟨h.symm, Or.inl h'⟩)
    · rcases lt_trichotomy a.gf b.gf with h'' | h'' | h''
      · exact Or.inr (Or.inr ⟨h.symm, Or.inr ⟨h'.symm, Or.inl h''⟩⟩)
      · rcases lexLe_total a.equipo b.equipo with hx | hx
        · exact Or.inl (Or.inr ⟨h, Or.inr ⟨h', Or.inr ⟨h'', hx⟩⟩⟩)
        · exact Or.inr (Or.inr ⟨h.symm, Or.inr ⟨h'.symm, Or.inr ⟨h''.symm, hx⟩⟩⟩)
      · exact Or.inl (Or.inr ⟨h, Or.inr ⟨h', Or.inl h''⟩⟩)
    · exact Or.inl (Or.inr ⟨h, Or.inl h'⟩)
  · exact Or.inl (Or.inl h)

theorem orden_clasificacion_trans (a b c : FilaClasificacion)
    (h1 : orden_clasificacion a b) (h2 : orden_clasificacion b c) :
    orden_clasificacion a c := by
  rcases h1 with h | ⟨hp, h1'⟩
  · left
    rcases h2 with h' | ⟨hp', _⟩ <;> omega
  · rcases h2 with h' | ⟨hp', h2'⟩
    · left
      omega
    · refine Or.inr ⟨by omega, ?_⟩
      rcases h1' with h | ⟨hd, h1''⟩
      · left
        rcases h2' with h' | ⟨hd', _⟩ <;> omega
      · rcases h2' with h' | ⟨hd', h2''⟩
        · left
          omega
        · refine Or.inr ⟨by omega, ?_⟩
          rcases h1'' with h | ⟨hg, hx⟩
          · left
            rcases h2'' with h' | ⟨hg', _⟩ <;> omega
          · rcases h2'' with h' | ⟨hg', hx'⟩
            · left
              omega
            · exact Or.inr ⟨by omega, lexLe_trans hx hx'⟩

theorem clave_orden_trans (a b c : FilaClasificacion)
    (h1 : clave_orden a b = true) (h2 : clave_orden b c = true) :
    clave_orden a c = true := by
  rw [clave_orden_eq_true_iff] at h1 h2 ⊢
  exact orden_clasificacion_trans a b c h1 h2

theorem mem_insertEl {le : α → α → Bool} {x y : α} {l : List α} :
    y ∈ insertEl le x l ↔ y = x ∨ y ∈ l := by
  induction l with
  | nil => simp [insertEl]
  | cons z zs ih =>
      by_cases h : le x z = true
      · simp only [insertEl, if_pos h, List.mem_cons]
      · simp only [insertEl, if_neg h, List.mem_cons, ih]
        tauto

theorem pairwise_insertEl {le : α → α → Bool}
    (htotal : ∀ a b, le a b = true ∨ le b a = true)
    (htrans : ∀ a b c, le a b = true → le b c = true → le a c = true)
    (x : α) (l : List α) (hl : l.Pairwise (le · · = true)) :
    (insertEl le x l).Pairwise (le · · = true) := by
  induction l with
  | nil => simp [insertEl]
  | cons y ys ih =>
      rcases List.pairwise_cons.mp hl with ⟨hy, hys⟩
      by_cases h : le x y = true
      · simp only [insertEl, if_pos h]
        refine List.pairwise_cons.mpr ⟨?_, hl⟩
        intro z hz
        rcases List.mem_cons.mp hz with rfl | hz'
        · exact h
        · exact htrans x y z h (hy z hz')
      · simp only [insertEl, if_neg h]
        refine List.pairwise_cons.mpr ⟨?_, ih hys⟩
        intro z hz
        rcases mem_insertEl.mp hz with hzx | hz'
        · rw [hzx]
          rcases htotal x y with h' | h'
          · exact absurd h' h
          · exact h'
        · exact hy z hz'

theorem pairwise_insSort {le : α → α → Bool}
    (htotal : ∀ a b, le a b = true ∨ le b a = true)
    (htrans : ∀ a b c, le a b = true → le b c = true → le a c = true)
    (l : List α) : (insSort le l).Pairwise (le · · = true) := by
  induction l with
  | nil => exact List.Pairwise.nil
  | cons x xs ih => exact pairwise_insertEl htotal htrans x (insSort le xs) ih

theorem length_insertEl {le : α → α → Bool} (x : α) :
    ∀ l : List α, (insertEl le x l).length = l.length + 1
  | [] => rfl
  | y :: ys => by
      by_cases h : le x y = true
      · simp [insertEl, if_pos h]
      · simp [insertEl, if_neg h, length_insertEl x ys]

theorem length_insSort {le : α → α → Bool} :
    ∀ l : List α, (insSort le l).length = l.length
  | [] => rfl
  | x :: xs => by simp [insSort, length_insertEl, length_insSort xs]

theorem length_asignar_posiciones :
    ∀ (k : ℕ) (l : List FilaClasificacion), (asignar_posiciones k l).length = l.length
  | _, [] => rfl
  | k, f :: fs => by simp [asignar_posiciones, length_asignar_posiciones (k + 1) fs]

theorem map_posicion_asignar :
    ∀ (k : ℕ) (l : List FilaClasificacion),
      (asignar_posiciones k l).map (fun f => f.posicion) = List.range' k l.length
  | _, [] => rfl
  | k, f :: fs => by
      simp only [asignar_posiciones, List.map_cons, List.length_cons, List.range'_succ]
      rw [map_posicion_asignar (k + 1) fs]

theorem get_asignar_posiciones :
    ∀ (k : ℕ) (l : List FilaClasificacion) (i : ℕ) (hi : i < l.length),
      (asignar_posiciones k l).get
          ⟨i, by rw [length_asignar_posiciones]; exact hi⟩ =
        { l.get ⟨i, hi⟩ with posicion := k + i }
  | k, f :: fs, 0, _ => rfl
  | k, f :: fs, i + 1, hi => by
      have hi' : i < fs.length := by simpa using hi
      have ih := get_asignar_posiciones (k + 1) fs i hi'
      simp only [asignar_posiciones, List.get_cons_succ]
      rw [ih]
      have harith : k + 1 + i = k + (i + 1) := by omega
      rw [harith]

theorem mem_asignar_posiciones : ∀ {k : ℕ} {l : List FilaClasificacion} {b : FilaClasificacion},
    b ∈ asignar_posiciones k l → ∃ g ∈ l, ∃ j, b = { g with posicion := j }
  | k, [], b, h => by simp [asignar_posiciones] at h
  | k, f :: fs, b, h => by
      rcases List.mem_cons.mp h with rfl | h'
      · exact ⟨f, List.mem_cons_self f fs, k, rfl⟩
      · obtain ⟨g, hg, j, rfl⟩ := mem_asignar_posiciones h'
        exact ⟨g, List.mem_cons_of_mem f hg, j, rfl⟩

theorem pairwise_asignar_posiciones : ∀ (k : ℕ) (l : List FilaClasificacion),
    l.Pairwise orden_clasificacion →
    (asignar_posiciones k l).Pairwise orden_clasificacion
  | _, [], _ => List.Pairwise.nil
  | k, f :: fs, h => by
      rcases List.pairwise_cons.mp h with ⟨hf, hfs⟩
      refine List.pairwise_cons.mpr ⟨?_, pairwise_asignar_posiciones (k + 1) fs hfs⟩
      intro b hb
      obtain ⟨g, hg, j, rfl⟩ := mem_asignar_posiciones hb
      exact hf g hg

theorem orden_lexLe_de_claves_iguales (a b : FilaClasificacion) (hp : a.pts = b.pts)
    (hd : a.dif = b.dif) (hg : a.gf = b.gf) (h : orden_clasificacion a b) :
    lexLe a.equipo b.equipo = true := by
  rcases h with h | ⟨_, h | ⟨_, h | ⟨_, h⟩⟩⟩ <;> first | omega | exact h

/-- C5: the generated classification table is sorted by points
descending, then goal difference descending, then goals for
descending, then team name ascending; positions are the 1-based
consecutive ranks 1..n assigned after sorting; and among rows with
equal points, goal difference and goals for, the lexicographically
earlier team name receives the strictly smaller position. -/
theorem C5_clasificacion_ordenada (equipos : List Equipo) (tipo : TipoTiempo)
    (tabla : List FilaClasificacion)
    (h : generar_clasificacion equipos tipo = some tabla) :
    tabla.Pairwise orden_clasificacion ∧
    tabla.map (fun f => f.posicion) = List.range' 1 equipos.length ∧
    (∀ i j, (hi : i < tabla.length) → (hj : j < tabla.length) →
      (tabla.get ⟨i, hi⟩).pts = (tabla.get ⟨j, hj⟩).pts →
      (tabla.get ⟨i, hi⟩).dif = (tabla.get ⟨j, hj⟩).dif →
      (tabla.get ⟨i, hi⟩).gf = (tabla.get ⟨j, hj⟩).gf →
      (tabla.get ⟨i, hi⟩).equipo ≠ (tabla.get ⟨j, hj⟩).equipo →
      lexLe (tabla.get ⟨i, hi⟩).equipo (tabla.get ⟨j, hj⟩).equipo = true →
      (tabla.get ⟨i, hi⟩).posicion < (tabla.get ⟨j, hj⟩).posicion) := by
  unfold generar_clasificacion at h
  split_ifs at h with hempty
  obtain rfl := (Option.some_inj.mp h).symm
  have hsortlen : (insSort clave_orden (equipos.map (fila_de_equipo tipo))).length =
      equipos.length := by
    rw [length_insSort, List.length_map]
  have hpw : (insSort clave_orden (equipos.map (fila_de_equipo tipo))).Pairwise
      orden_clasificacion :=
    (pairwise_insSort clave_orden_total clave_orden_trans _).imp
      fun hab => (clave_orden_eq_true_iff _ _).mp hab
  refine ⟨pairwise_asignar_posiciones 1 _ hpw, ?_, ?_⟩
  · rw [map_posicion_asignar, hsortlen]
  · intro i j hi hj hpts hdif hgf hne hlex
    have hi' : i < (insSort clave_orden (equipos.map (fila_de_equipo tipo))).length := by
      rwa [length_asignar_posiciones] at hi
    have hj' : j < (insSort clave_orden (equipos.map (fila_de_equipo tipo))).length := by
      rwa [length_asignar_posiciones] at hj
    have hgi := get_asignar_posiciones 1 _ i hi'
    have hgj := get_asignar_posiciones 1 _ j hj'
    rw [hgi, hgj] at hpts hdif hgf hne hlex ⊢
    dsimp only at hpts hdif hgf hne hlex ⊢
    show 1 + i < 1 + j
    rcases Nat.lt_trichotomy i j with hij | hij | hij
    · omega
    · exfalso
      subst hij
      exact hne rfl
    · exfalso
      have hpair := (List.pairwise_iff_getElem.mp
        (pairwise_insSort clave_orden_total clave_orden_trans
          (equipos.map (fila_de_equipo tipo)))) j i hj' hi' hij
      have hpair' : orden_clasificacion
          ((insSort clave_orden (equipos.map (fila_de_equipo tipo))).get ⟨j, hj'⟩)
          ((insSort clave_orden (equipos.map (fila_de_equipo tipo))).get ⟨i, hi'⟩) := by
        rw [List.get_eq_getElem, List.get_eq_getElem]
        exact (clave_orden_eq_true_iff _ _).mp hpair
      have hlex' := orden_lexLe_de_claves_iguales _ _ (by omega) (by omega) (by omega) hpair'
      exact hne (lexLe_antisymm hlex hlex')

/-- A team with empty statistics, named A. -/
def equipo_wa : Equipo := { nombre := ['A'] }

/-- A team with empty statistics, named B. -/
def equipo_wb : Equipo := { nombre := ['B'] }

/-- The classification rows produced for teams B and A (all counters
zero): A first on the alphabetical tie-break. -/
def tabla_ab : List FilaClasificacion :=
  [{ equipo := ['A'], posicion := 1 }, { equipo := ['B'], posicion := 2 }]

theorem C5_clasificacion_ordenada_witness :
    generar_clasificacion [equipo_wb, equipo_wa] TipoTiempo.COMPLETO = some tabla_ab ∧
    tabla_ab.Pairwise orden_clasificacion ∧
    tabla_ab.map (fun f => f.posicion) = List.range' 1 2 ∧
    (tabla_ab.get ⟨0, by decide⟩).posicion < (tabla_ab.get ⟨1, by decide⟩).posicion := by
  have hq : generar_clasificacion [equipo_wb, equipo_wa] TipoTiempo.COMPLETO =
      some tabla_ab := by decide
  have hmain := C5_clasificacion_ordenada [equipo_wb, equipo_wa] TipoTiempo.COMPLETO
    tabla_ab hq
  exact ⟨hq, hmain.1, hmain.2.1,
    hmain.2.2 0 1 (by decide) (by decide) (by decide) (by decide) (by decide) (by decide)
      (by decide)⟩
